import Mathlib

/-!
Shallow embedding of the list-disks crate (src/lib.rs, src/fs/macos.rs).

Modelling conventions:
- Rust String is Lean String; `to_lowercase` is `String.toLower` (the
  identifiers that appear in this development are ASCII, where both agree).
- PathBuf is a String; `CFURL::to_file_path` and `CFUUID::new_string` may
  fail, so the corresponding record fields are already the Option results
  of those conversions.
- A native disk-description CFDictionary is the DiskRecord structure: every
  field is optional, matching `get_from_dict` returning Option.
- HashMap and HashSet are association lists and lists whose probe mirrors
  the two-stage check of the std collections: a stored key is found only
  when its hash coincides with the hash of the probe key and the PartialEq
  implementation accepts the pair. The derived Hash of DeviceId and
  VolumeId feeds the raw string to the hasher, and the hasher is modelled
  as collision-free, so a probe finds a stored key exactly when the raw
  strings coincide and the PartialEq holds.
- Platform calls (DASession creation, getfsstat, DADisk resolution,
  description reads, CFRunLoop acquisition, statvfs) are explicit
  environment data, one-shot as in the source.
-/

namespace ListDisks

/-- DeviceId newtype over a String, from src/lib.rs line 10. -/
structure DeviceId where
  raw : String
deriving DecidableEq

/-- VolumeId newtype over a String, from src/lib.rs line 87. -/
structure VolumeId where
  raw : String
deriving DecidableEq

/-- Lowercasing of a Rust string: the character-wise map that String.toLower
performs, written on the underlying character list so that it computes by
kernel reduction. On the ASCII identifiers of this development it agrees
with Rust String::to_lowercase. -/
def lowercase (s : String) : String :=
  String.mk (s.data.map Char.toLower)

/-- PartialEq for DeviceId (src/lib.rs lines 12-16): lowercased comparison. -/
def deviceIdEq (a b : DeviceId) : Bool :=
  lowercase a.raw == lowercase b.raw

/-- PartialEq for VolumeId (src/lib.rs lines 89-93): lowercased comparison. -/
def volumeIdEq (a b : VolumeId) : Bool :=
  lowercase a.raw == lowercase b.raw

/-- Data that the derived Hash implementation of DeviceId feeds to the
hasher (src/lib.rs line 9: derive(Hash) on the newtype hashes the single
raw String field). Two values are guaranteed to hash identically under
every hasher exactly when these inputs coincide. -/
def DeviceId.hashInput (a : DeviceId) : String := a.raw

/-- Data that the derived Hash implementation of VolumeId feeds to the
hasher (src/lib.rs line 86). -/
def VolumeId.hashInput (a : VolumeId) : String := a.raw

/-- The hash input the spec demands: the lowercased form of the identifier. -/
def specHashInput (s : String) : String := lowercase s

/-- DeviceKind enumeration, src/lib.rs lines 18-26. -/
inductive DeviceKind where
  | UsbFlashDrive
  | SdCard
  | MicroSdCard
  | InternalDrive
  | ExternalDrive
  | Other
deriving DecidableEq

/-- StorageDevice, src/lib.rs lines 57-84. The volumes HashSet is a list
to which hsInsert adds an element only when no stored element passes the
hash-plus-PartialEq probe. -/
structure StorageDevice where
  id : Option DeviceId
  display_name : Option String
  model : Option String
  kind : DeviceKind
  internal : Option Bool
  removable : Option Bool
  ejectable : Option Bool
  serial : Option String
  volumes : List VolumeId
deriving DecidableEq

/-- StorageVolume, src/lib.rs lines 96-123. PathBuf fields are Strings. -/
structure StorageVolume where
  id : Option VolumeId
  display_name : Option String
  device_id : Option DeviceId
  size : Option Nat
  free : Option Nat
  path : Option String
  mounts : List String
  partition_id : Option String
  is_system : Option Bool
  is_writable : Option Bool
deriving DecidableEq

/-- StorageEvent, src/lib.rs lines 29-53. -/
inductive StorageEvent where
  | AddDevice (device : StorageDevice)
  | UpdateDevice (device : StorageDevice)
  | RemoveDevice (id : DeviceId)
  | AddVolume (volume : StorageVolume)
  | UpdateVolume (volume : StorageVolume)
  | RemoveVolume (id : VolumeId)
  | Refresh
deriving DecidableEq

/-- One native disk-description record (the CFDictionary obtained from
DADisk::description). Each field is the Option result of the corresponding
`get_from_dict` call in src/fs/macos.rs, with CF value conversions already
applied: volumeUUID and mediaUUID are the CFUUID rendered by
CFUUID::new_string (absent when the key is missing or rendering fails),
volumePath is the CFURL resolved by to_file_path (absent when the key is
missing or resolution fails), mediaSize is the CFNumber read as i64. -/
structure DiskRecord where
  volumeUUID : Option String
  volumePath : Option String
  mediaSize : Option Int
  devicePath : Option String
  volumeName : Option String
  mediaWritable : Option Bool
  mediaUUID : Option String
  mediaName : Option String
  deviceInternal : Option Bool
  mediaRemovable : Option Bool
  mediaEjectable : Option Bool
  deviceModel : Option String
deriving DecidableEq

/-- Result of the statvfs platform call on a mount path: none on failure,
otherwise the pair (f_bavail, f_bsize) as u64 values. -/
abbrev StatFn : Type := String → Option (Nat × Nat)

/-- get_volume_info, src/fs/macos.rs lines 257-320, parameterised by the
statvfs platform call. The free computation multiplies f_bavail by f_bsize
as u64, hence the reduction modulo 2 ^ 64 (release-mode wrapping). -/
def get_volume_info (stat : StatFn) (d : DiskRecord) : StorageVolume :=
  let volume_id := d.volumeUUID.map VolumeId.mk
  let mount_path := d.volumePath
  let size := d.mediaSize.map fun i => (i % (2 : Int) ^ 64).toNat
  let free :=
    match mount_path with
    | some p =>
      if p.utf8ByteSize > 0 then
        match stat p with
        | some (bavail, bsize) => some (bavail * bsize % 2 ^ 64)
        | none => none
      else none
    | none => none
  let device_path := d.devicePath
  { id := volume_id
    device_id := device_path.map DeviceId.mk
    display_name := d.volumeName
    size := size
    free := free
    path := device_path
    mounts := mount_path.toList
    partition_id := none
    is_writable := d.mediaWritable
    is_system := none }

/-- Device-kind classification, src/fs/macos.rs lines 354-363. -/
def classifyKind (model : Option String) (internal : Option Bool) : DeviceKind :=
  match model with
  | some "SD/MMC" => DeviceKind.SdCard
  | some "Micro SD/M2" => DeviceKind.MicroSdCard
  | some "Flash Disk" => DeviceKind.UsbFlashDrive
  | _ =>
    match internal with
    | some true => DeviceKind.InternalDrive
    | some false => DeviceKind.ExternalDrive
    | _ => DeviceKind.Other

/-- get_device_info, src/fs/macos.rs lines 322-376. -/
def get_device_info (d : DiskRecord) : StorageDevice :=
  let device_id := d.devicePath.map DeviceId.mk
  { id := device_id
    display_name := d.mediaName
    model := d.deviceModel
    kind := classifyKind d.deviceModel d.deviceInternal
    internal := d.deviceInternal
    removable := d.mediaRemovable
    ejectable := d.mediaEjectable
    serial := d.mediaUUID
    volumes := [] }

/-- HashSet insert for the volumes set: a no-op when the probe finds a
stored element, which per the std two-stage check requires the hash of the
stored element to coincide with the hash of v (the derived Hash feeds the
raw string, the hasher is modelled collision-free) and the PartialEq of
VolumeId to accept the pair. Elements whose raw strings differ are never
found, even when they are equal only case-insensitively. -/
def hsInsert (s : List VolumeId) (v : VolumeId) : List VolumeId :=
  if s.any fun w => w.hashInput == v.hashInput && volumeIdEq w v then s
  else s ++ [v]

/-- Insertion of an optional volume id into the volumes set of a device
(the `if let Some(volume_id) = &volume.id` body, src/fs/macos.rs 114-116). -/
def addVolumeToDevice (dev : StorageDevice) (vid : Option VolumeId) : StorageDevice :=
  match vid with
  | some v => { dev with volumes := hsInsert dev.volumes v }
  | none => dev

/-- The device HashMap of get_devices as an association list. -/
abbrev DeviceMap : Type := List (DeviceId × StorageDevice)

/-- devices.entry(device_id).or_insert(device) followed by the optional
volume insertion (src/fs/macos.rs lines 111-117). The entry probe mirrors
the std HashMap two-stage check: a stored key is selected only when its
hash coincides with the hash of k (the derived Hash feeds the raw string,
the hasher is modelled collision-free) and the PartialEq of DeviceId
accepts the pair; keys whose raw strings differ are never selected, even
when they are equal only case-insensitively. When no stored key is
selected, (k, device) is inserted and then receives the volume id. -/
def mapUpsert (m : DeviceMap) (k : DeviceId) (dev : StorageDevice)
    (vid : Option VolumeId) : DeviceMap :=
  match m with
  | [] => [(k, addVolumeToDevice dev vid)]
  | (kh, dh) :: rest =>
    if kh.hashInput == k.hashInput && deviceIdEq kh k then
      (kh, addVolumeToDevice dh vid) :: rest
    else (kh, dh) :: mapUpsert rest k dev vid

/-- One mounted-filesystem entry of getfsstat as seen by the loop body:
none models DADisk::from_bsd_name failing, some none models
DADisk::description failing, some (some r) is a readable record. -/
abbrev FsEntry : Type := Option (Option DiskRecord)

/-- Loop body of get_devices, src/fs/macos.rs lines 74-120. -/
def processEntry (stat : StatFn) (acc : DeviceMap × List StorageVolume)
    (e : FsEntry) : DeviceMap × List StorageVolume :=
  match e with
  | none => acc
  | some none => acc
  | some (some r) =>
    let volume := get_volume_info stat r
    let device := get_device_info r
    let m :=
      match device.id with
      | some device_id => mapUpsert acc.1 device_id device volume.id
      | none => acc.1
    (m, acc.2 ++ [volume])

/-- The fold of the loop body over all mounted-filesystem entries. -/
def snapshotFold (stat : StatFn) (entries : List FsEntry)
    (m : DeviceMap) (vs : List StorageVolume) : DeviceMap × List StorageVolume :=
  entries.foldl (processEntry stat) (m, vs)

/-- Environment of one get_devices call: whether DASession::new succeeds,
whether each of the two getfsstat calls succeeds, the per-entry platform
data, and the statvfs call. -/
structure SnapshotEnv where
  sessionOk : Bool
  fsstat1Ok : Bool
  fsstat2Ok : Bool
  entries : List FsEntry
  stat : StatFn

/-- get_devices, src/fs/macos.rs lines 33-129. -/
def get_devices (env : SnapshotEnv) :
    Except String (List StorageDevice × List StorageVolume) :=
  if !env.sessionOk then Except.error "could not create disk session"
  else if !env.fsstat1Ok then Except.error "getfsstat failed"
  else if !env.fsstat2Ok then Except.error "getfsstat failed"
  else
    let r := snapshotFold env.stat env.entries [] []
    Except.ok (r.1.map Prod.snd, r.2)

/-- The disk_appeared callback, src/fs/macos.rs lines 186-201: the events it
sends on the channel, in order. The argument is the Option result of
DADisk::description. -/
def disk_appeared (stat : StatFn) (desc : Option DiskRecord) : List StorageEvent :=
  match desc with
  | none => []
  | some r =>
    [StorageEvent.AddDevice (get_device_info r),
     StorageEvent.AddVolume (get_volume_info stat r)]

/-- The disk_changed callback, src/fs/macos.rs lines 203-222: identical
event sequence to disk_appeared. -/
def disk_changed (stat : StatFn) (desc : Option DiskRecord) : List StorageEvent :=
  match desc with
  | none => []
  | some r =>
    [StorageEvent.AddDevice (get_device_info r),
     StorageEvent.AddVolume (get_volume_info stat r)]

/-- The disk_disappeared callback, src/fs/macos.rs lines 224-245: both ids
are extracted before anything is sent; RemoveVolume is sent when the volume
id resolved, then RemoveDevice when the device id resolved. -/
def disk_disappeared (stat : StatFn) (desc : Option DiskRecord) : List StorageEvent :=
  match desc with
  | none => []
  | some r =>
    let volume_id := (get_volume_info stat r).id
    let device_id := (get_device_info r).id
    (match volume_id with
     | some id => [StorageEvent.RemoveVolume id]
     | none => []) ++
    (match device_id with
     | some id => [StorageEvent.RemoveDevice id]
     | none => [])

/-- One native notification delivered to the run loop. -/
inductive Notification where
  | appeared (desc : Option DiskRecord)
  | changed (desc : Option DiskRecord)
  | disappeared (desc : Option DiskRecord)

/-- Dispatch of one notification to the registered callback. -/
def handleNotification (stat : StatFn) (n : Notification) : List StorageEvent :=
  match n with
  | Notification.appeared d => disk_appeared stat d
  | Notification.changed d => disk_changed stat d
  | Notification.disappeared d => disk_disappeared stat d

/-- Environment of one monitor_devices call: whether DASession::new
succeeds, whether CFRunLoop::current returns a run loop, the notifications
the run loop delivers before it is stopped, and the statvfs call. -/
structure MonitorEnv where
  sessionOk : Bool
  runLoopOk : Bool
  notifications : List Notification
  stat : StatFn

/-- monitor_devices, src/fs/macos.rs lines 131-176: the value returned to
the caller together with the sequence of events sent on the channel while
the run loop ran. -/
def monitor_devices (env : MonitorEnv) : Except String (List StorageEvent) :=
  if !env.sessionOk then Except.error "could not create disk session"
  else if !env.runLoopOk then Except.error "could not get current run loop"
  else
    Except.ok (env.notifications.foldl
      (fun acc n => acc ++ handleNotification env.stat n) [])

/-- Whether an Except value is the error case. -/
def exceptIsError {α : Type} (e : Except String α) : Bool :=
  match e with
  | Except.error _ => true
  | Except.ok _ => false

/-- A statvfs call that fails on every path, used for concrete evaluations. -/
def st0 : StatFn := fun _ => none

/-- Concrete record of the spec scenario: an SD card on /dev/disk2 with
volume UUID ABCD-1 mounted at /Volumes/CARD. -/
def recSD : DiskRecord :=
  { volumeUUID := some "ABCD-1"
    volumePath := some "/Volumes/CARD"
    mediaSize := some 31914983424
    devicePath := some "/dev/disk2"
    volumeName := some "CARD"
    mediaWritable := some true
    mediaUUID := none
    mediaName := some "Card Reader"
    deviceInternal := some false
    mediaRemovable := some true
    mediaEjectable := some true
    deviceModel := some "SD/MMC" }

/-- Concrete record with every native field absent. -/
def recBare : DiskRecord :=
  { volumeUUID := none
    volumePath := none
    mediaSize := none
    devicePath := none
    volumeName := none
    mediaWritable := none
    mediaUUID := none
    mediaName := none
    deviceInternal := none
    mediaRemovable := none
    mediaEjectable := none
    deviceModel := none }

/-- Concrete record of an internal drive with an unrecognised model. -/
def recInternal : DiskRecord :=
  { recBare with devicePath := some "/dev/disk0"
                 deviceInternal := some true
                 deviceModel := some "Generic HDD" }

/-- First record of the two-entry merge scenario on /dev/disk3. -/
def rec3A : DiskRecord :=
  { recBare with volumeUUID := some "AAAA-1"
                 devicePath := some "/dev/disk3"
                 volumeName := some "First" }

/-- Second record of the two-entry merge scenario on /dev/disk3. -/
def rec3B : DiskRecord :=
  { recBare with volumeUUID := some "BBBB-2"
                 devicePath := some "/dev/disk3"
                 volumeName := some "Second" }

/-- Record with the case-differing device path /DEV/DISK3 and a second
volume UUID, paired with rec3A in the merge-failure evaluation. -/
def rec3BU : DiskRecord :=
  { recBare with volumeUUID := some "BBBB-2"
                 devicePath := some "/DEV/DISK3"
                 volumeName := some "Second" }

/-- Record whose device path is the lower-case /dev/disk3. -/
def recLower : DiskRecord :=
  { recBare with devicePath := some "/dev/disk3" }

/-- Record whose device path is the upper-case /DEV/DISK3. -/
def recUpper : DiskRecord :=
  { recBare with devicePath := some "/DEV/DISK3" }

/-- Record sharing the device path of recLower but naming a volume UUID. -/
def recLower2 : DiskRecord :=
  { recBare with devicePath := some "/dev/disk3"
                 volumeUUID := some "ZZZZ-9" }

/-- Environment in which the session opens but the first getfsstat call
fails. -/
def envBadFsstat : SnapshotEnv :=
  { sessionOk := true
    fsstat1Ok := false
    fsstat2Ok := true
    entries := []
    stat := st0 }

/-- Environment of the one-record snapshot used as a witness input. -/
def envC5 : SnapshotEnv :=
  { sessionOk := true
    fsstat1Ok := true
    fsstat2Ok := true
    entries := [some (some recSD)]
    stat := st0 }

/-- Devices returned by get_devices on envC5. -/
def devsC5 : List StorageDevice :=
  [{ get_device_info recSD with volumes := [⟨"ABCD-1"⟩] }]

/-- Volumes returned by get_devices on envC5. -/
def volsC5 : List StorageVolume :=
  [get_volume_info st0 recSD]

/-- Some entry of the device map matches key d under the PartialEq of
DeviceId and holds an element matching vid in its volumes set. -/
def MapHas (m : DeviceMap) (d : DeviceId) (vid : VolumeId) : Prop :=
  ∃ p ∈ m, deviceIdEq p.1 d = true ∧ ∃ w ∈ p.2.volumes, volumeIdEq w vid = true

theorem deviceIdEq_refl (d : DeviceId) : deviceIdEq d d = true :=
  beq_self_eq_true _

theorem volumeIdEq_refl (v : VolumeId) : volumeIdEq v v = true :=
  beq_self_eq_true _

theorem device_id_of_volume (stat : StatFn) (r : DiskRecord) :
    (get_volume_info stat r).device_id = (get_device_info r).id := rfl

theorem hsInsert_mem {s : List VolumeId} {w : VolumeId} (v : VolumeId)
    (h : w ∈ s) : w ∈ hsInsert s v := by
  unfold hsInsert
  split
  · exact h
  · exact List.mem_append_left _ h

theorem hsInsert_has (s : List VolumeId) (v : VolumeId) :
    ∃ w ∈ hsInsert s v, volumeIdEq w v = true := by
  unfold hsInsert
  split
  · next h =>
    rcases List.any_eq_true.mp h with ⟨w, hw, hwv⟩
    exact ⟨w, hw, (Bool.and_eq_true_iff.mp hwv).2⟩
  · exact ⟨v, List.mem_append_right _ (by simp), volumeIdEq_refl v⟩

theorem addVolumeToDevice_id (dev : StorageDevice) (vid : Option VolumeId) :
    (addVolumeToDevice dev vid).id = dev.id := by
  cases vid <;> rfl

theorem addVolumeToDevice_mem {dev : StorageDevice} {w : VolumeId}
    (vid : Option VolumeId) (h : w ∈ dev.volumes) :
    w ∈ (addVolumeToDevice dev vid).volumes := by
  cases vid with
  | none => exact h
  | some v => exact hsInsert_mem v h

theorem mapUpsert_preserves_MapHas {m : DeviceMap} {d : DeviceId}
    {vid : VolumeId} (k : DeviceId) (dev : StorageDevice)
    (ov : Option VolumeId) (h : MapHas m d vid) :
    MapHas (mapUpsert m k dev ov) d vid := by
  induction m with
  | nil =>
    rcases h with ⟨p, hp, _⟩
    simp at hp
  | cons hd0 tl ih =>
    obtain ⟨kh, dh⟩ := hd0
    rcases h with ⟨p, hp, hk, w, hw, hwv⟩
    unfold mapUpsert
    split
    · rcases List.mem_cons.mp hp with rfl | hmem
      · exact ⟨(kh, addVolumeToDevice dh ov), List.mem_cons_self _ _, hk,
          w, addVolumeToDevice_mem ov hw, hwv⟩
      · exact ⟨p, List.mem_cons_of_mem _ hmem, hk, w, hw, hwv⟩
    · rcases List.mem_cons.mp hp with rfl | hmem
      · exact ⟨(kh, dh), List.mem_cons_self _ _, hk, w, hw, hwv⟩
      · rcases ih ⟨p, hmem, hk, w, hw, hwv⟩ with ⟨q, hq, hk2, w2, hw2, hwv2⟩
        exact ⟨q, List.mem_cons_of_mem _ hq, hk2, w2, hw2, hwv2⟩

theorem mapUpsert_self_MapHas (m : DeviceMap) (k : DeviceId)
    (dev : StorageDevice) (vid : VolumeId) :
    MapHas (mapUpsert m k dev (some vid)) k vid := by
  induction m with
  | nil =>
    refine ⟨(k, addVolumeToDevice dev (some vid)), by simp [mapUpsert],
      deviceIdEq_refl k, ?_⟩
    exact hsInsert_has dev.volumes vid
  | cons hd0 tl ih =>
    obtain ⟨kh, dh⟩ := hd0
    unfold mapUpsert
    split
    · next heq =>
      exact ⟨(kh, addVolumeToDevice dh (some vid)), List.mem_cons_self _ _,
        (Bool.and_eq_true_iff.mp heq).2, hsInsert_has dh.volumes vid⟩
    · rcases ih with ⟨q, hq, hk, w, hw, hwv⟩
      exact ⟨q, List.mem_cons_of_mem _ hq, hk, w, hw, hwv⟩

theorem mapUpsert_keys {m : DeviceMap} (k : DeviceId) (dev : StorageDevice)
    (ov : Option VolumeId) (hdev : dev.id = some k)
    (h : ∀ p ∈ m, p.2.id = some p.1) :
    ∀ p ∈ mapUpsert m k dev ov, p.2.id = some p.1 := by
  induction m with
  | nil =>
    intro p hp
    simp [mapUpsert] at hp
    subst hp
    show (addVolumeToDevice dev ov).id = some k
    rw [addVolumeToDevice_id]
    exact hdev
  | cons hd0 tl ih =>
    obtain ⟨kh, dh⟩ := hd0
    intro p hp
    unfold mapUpsert at hp
    split at hp
    · rcases List.mem_cons.mp hp with rfl | hmem
      · show (addVolumeToDevice dh ov).id = some kh
        rw [addVolumeToDevice_id]
        exact h (kh, dh) (List.mem_cons_self _ _)
      · exact h p (List.mem_cons_of_mem _ hmem)
    · rcases List.mem_cons.mp hp with rfl | hmem
      · exact h (kh, dh) (List.mem_cons_self _ _)
      · exact ih (fun q hq => h q (List.mem_cons_of_mem _ hq)) p hmem

theorem snapshotFold_preserves_MapHas (stat : StatFn)
    (entries : List FsEntry) {d : DeviceId} {vid : VolumeId} :
    ∀ (m : DeviceMap) (vs : List StorageVolume), MapHas m d vid →
    MapHas (snapshotFold stat entries m vs).1 d vid := by
  induction entries with
  | nil => intro m vs h; exact h
  | cons e tl ih =>
    intro m vs h
    show MapHas (snapshotFold stat tl (processEntry stat (m, vs) e).1
      (processEntry stat (m, vs) e).2).1 d vid
    apply ih
    cases e with
    | none => exact h
    | some o =>
      cases o with
      | none => exact h
      | some r =>
        show MapHas
          (match (get_device_info r).id with
           | some device_id =>
             mapUpsert m device_id (get_device_info r) (get_volume_info stat r).id
           | none => m) d vid
        cases hdid : (get_device_info r).id with
        | none => exact h
        | some did => exact mapUpsert_preserves_MapHas did _ _ h

theorem snapshotFold_keys (stat : StatFn) (entries : List FsEntry) :
    ∀ (m : DeviceMap) (vs : List StorageVolume),
    (∀ p ∈ m, p.2.id = some p.1) →
    ∀ p ∈ (snapshotFold stat entries m vs).1, p.2.id = some p.1 := by
  induction entries with
  | nil => intro m vs h; exact h
  | cons e tl ih =>
    intro m vs h
    show ∀ p ∈ (snapshotFold stat tl (processEntry stat (m, vs) e).1
      (processEntry stat (m, vs) e).2).1, p.2.id = some p.1
    apply ih
    cases e with
    | none => exact h
    | some o =>
      cases o with
      | none => exact h
      | some r =>
        show ∀ p ∈
          (match (get_device_info r).id with
           | some device_id =>
             mapUpsert m device_id (get_device_info r) (get_volume_info stat r).id
           | none => m), p.2.id = some p.1
        cases hdid : (get_device_info r).id with
        | none => exact h
        | some did => exact mapUpsert_keys did _ _ hdid h

theorem snapshotFold_assoc (stat : StatFn) (entries : List FsEntry) :
    ∀ (m : DeviceMap) (vs : List StorageVolume) (v : StorageVolume)
      (d : DeviceId) (vid : VolumeId),
    v ∈ (snapshotFold stat entries m vs).2 →
    v.device_id = some d → v.id = some vid →
    v ∈ vs ∨ MapHas (snapshotFold stat entries m vs).1 d vid := by
  induction entries with
  | nil =>
    intro m vs v d vid hv _ _
    exact Or.inl hv
  | cons e tl ih =>
    intro m vs v d vid hv hd hid
    cases e with
    | none => exact ih m vs v d vid hv hd hid
    | some o =>
      cases o with
      | none => exact ih m vs v d vid hv hd hid
      | some r =>
        have step : snapshotFold stat (some (some r) :: tl) m vs =
            snapshotFold stat tl
              (match (get_device_info r).id with
               | some device_id =>
                 mapUpsert m device_id (get_device_info r) (get_volume_info stat r).id
               | none => m)
              (vs ++ [get_volume_info stat r]) := rfl
        rw [step] at hv ⊢
        rcases ih _ _ v d vid hv hd hid with hmem | hhas
        · rcases List.mem_append.mp hmem with hvs | hnew
          · exact Or.inl hvs
          · have hveq : v = get_volume_info stat r := List.mem_singleton.mp hnew
            subst hveq
            right
            have hdd : (get_device_info r).id = some d := by
              rw [← device_id_of_volume stat r]
              exact hd
            apply snapshotFold_preserves_MapHas
            rw [hdd, hid]
            exact mapUpsert_self_MapHas m d (get_device_info r) vid
        · exact Or.inr hhas

/-- C1: the spec demands that DeviceId and VolumeId hash the lowercased
form of the identifier so that ids equal under the case-insensitive
PartialEq always hash identically. The source derives Hash on the newtype,
which feeds the raw string to the hasher. At a = "A" and b = "a" the two
ids are equal under the PartialEq of the source while the derived Hash
feeds different data to the hasher, so equal ids are not guaranteed to
hash identically; hashing the lowercased form, as the spec demands, would
make the hash inputs coincide. -/
theorem C1_hash_contract_broken :
    deviceIdEq ⟨"A"⟩ ⟨"a"⟩ = true ∧
    DeviceId.hashInput ⟨"A"⟩ ≠ DeviceId.hashInput ⟨"a"⟩ ∧
    volumeIdEq ⟨"A"⟩ ⟨"a"⟩ = true ∧
    VolumeId.hashInput ⟨"A"⟩ ≠ VolumeId.hashInput ⟨"a"⟩ ∧
    specHashInput "A" = specHashInput "a" :=
  ⟨by decide, by decide, by decide, by decide, by decide⟩

/-- C2: device-kind classification follows the precedence table with first
match winning: the three model strings win over the internal flag, and
otherwise the internal flag decides, defaulting to Other. -/
theorem C2_kind_classification (r : DiskRecord) :
    (r.deviceModel = some "SD/MMC" →
      (get_device_info r).kind = DeviceKind.SdCard) ∧
    (r.deviceModel = some "Micro SD/M2" →
      (get_device_info r).kind = DeviceKind.MicroSdCard) ∧
    (r.deviceModel = some "Flash Disk" →
      (get_device_info r).kind = DeviceKind.UsbFlashDrive) ∧
    (r.deviceModel ≠ some "SD/MMC" → r.deviceModel ≠ some "Micro SD/M2" →
      r.deviceModel ≠ some "Flash Disk" →
      (r.deviceInternal = some true →
        (get_device_info r).kind = DeviceKind.InternalDrive) ∧
      (r.deviceInternal = some false →
        (get_device_info r).kind = DeviceKind.ExternalDrive) ∧
      (r.deviceInternal = none →
        (get_device_info r).kind = DeviceKind.Other)) := by
  refine ⟨?_, ?_, ?_, ?_⟩
  · intro h
    show classifyKind r.deviceModel r.deviceInternal = DeviceKind.SdCard
    rw [h]
    rfl
  · intro h
    show classifyKind r.deviceModel r.deviceInternal = DeviceKind.MicroSdCard
    rw [h]
    rfl
  · intro h
    show classifyKind r.deviceModel r.deviceInternal = DeviceKind.UsbFlashDrive
    rw [h]
    rfl
  · intro h1 h2 h3
    refine ⟨?_, ?_, ?_⟩ <;> intro h4 <;>
      (show classifyKind r.deviceModel r.deviceInternal = _) <;>
      unfold classifyKind <;> split
    · simp_all
    · simp_all
    · simp_all
    · rw [h4]
    · simp_all
    · simp_all
    · simp_all
    · rw [h4]
    · simp_all
    · simp_all
    · simp_all
    · rw [h4]

/-- C2 witness: a record with model SD/MMC and external flag classifies as
SdCard, and a record with an unknown model and internal flag set classifies
as InternalDrive. -/
theorem C2_kind_classification_witness :
    (get_device_info recSD).kind = DeviceKind.SdCard ∧
    (get_device_info recInternal).kind = DeviceKind.InternalDrive :=
  ⟨(C2_kind_classification recSD).1 rfl,
   ((C2_kind_classification recInternal).2.2.2
     (by decide) (by decide) (by decide)).1 rfl⟩

/-- C6: the device id of the Device and the device_id of the Volume
produced from one record are both derived from the native device-path
field, hence equal, and both are absent when that field is absent. -/
theorem C6_device_id_shared (stat : StatFn) (r : DiskRecord) :
    (get_volume_info stat r).device_id = (get_device_info r).id ∧
    (r.devicePath = none →
      (get_volume_info stat r).device_id = none ∧
      (get_device_info r).id = none) := by
  refine ⟨rfl, ?_⟩
  intro h
  constructor <;> (show r.devicePath.map DeviceId.mk = none) <;> rw [h] <;> rfl

/-- C6 witness: on the record with no device path both ids are none and
they agree. -/
theorem C6_device_id_shared_witness :
    (get_volume_info st0 recBare).device_id = (get_device_info recBare).id ∧
    ((get_volume_info st0 recBare).device_id = none ∧
     (get_device_info recBare).id = none) :=
  ⟨(C6_device_id_shared st0 recBare).1, (C6_device_id_shared st0 recBare).2 rfl⟩

/-- C8: a Volume with an empty mounts list has free = none, and free is
none whenever no mount path resolved, the resolved path is empty, or the
statvfs query failed. -/
theorem C8_free_absent (stat : StatFn) (r : DiskRecord) :
    ((get_volume_info stat r).mounts = [] →
      (get_volume_info stat r).free = none) ∧
    (r.volumePath = none → (get_volume_info stat r).free = none) ∧
    (∀ p, r.volumePath = some p → stat p = none →
      (get_volume_info stat r).free = none) ∧
    (r.volumePath = some "" → (get_volume_info stat r).free = none) := by
  have hm : (get_volume_info stat r).mounts = r.volumePath.toList := rfl
  have hf : (get_volume_info stat r).free =
      (match r.volumePath with
       | some p =>
         if p.utf8ByteSize > 0 then
           match stat p with
           | some (bavail, bsize) => some (bavail * bsize % 2 ^ 64)
           | none => none
         else none
       | none => none) := rfl
  refine ⟨?_, ?_, ?_, ?_⟩
  · intro h
    rw [hm] at h
    rw [hf]
    rcases hp : r.volumePath with _ | p
    · rfl
    · rw [hp] at h
      simp at h
  · intro h
    rw [hf, h]
  · intro p hp hs
    rw [hf, hp]
    show (if p.utf8ByteSize > 0 then
      match stat p with
      | some (bavail, bsize) => some (bavail * bsize % 2 ^ 64)
      | none => none
      else none) = none
    split
    · rw [hs]
    · rfl
  · intro h
    rw [hf, h]
    rfl

/-- C8 witness: the record with no native fields yields an unmounted
volume whose free field is none. -/
theorem C8_free_absent_witness :
    (get_volume_info st0 recBare).mounts = [] ∧
    (get_volume_info st0 recBare).free = none :=
  ⟨rfl, (C8_free_absent st0 recBare).1 rfl⟩

/-- C9: the disappeared callback drops a notification silently when the
ids do not resolve: no RemoveVolume is sent without a volume id, no
RemoveDevice without a device id, an unreadable description produces no
events at all, and no Refresh or placeholder event is ever sent. -/
theorem C9_silent_partial_drop (stat : StatFn) (desc : Option DiskRecord) :
    (∀ r, desc = some r → (get_volume_info stat r).id = none →
      ∀ vid, StorageEvent.RemoveVolume vid ∉ disk_disappeared stat desc) ∧
    (∀ r, desc = some r → (get_device_info r).id = none →
      ∀ did, StorageEvent.RemoveDevice did ∉ disk_disappeared stat desc) ∧
    (desc = none → disk_disappeared stat desc = []) ∧
    StorageEvent.Refresh ∉ disk_disappeared stat desc := by
  refine ⟨?_, ?_, ?_, ?_⟩
  · intro r hr hid vid
    subst hr
    cases hdid : (get_device_info r).id <;>
      simp [disk_disappeared, hid, hdid]
  · intro r hr hid did
    subst hr
    cases hvid : (get_volume_info stat r).id <;>
      simp [disk_disappeared, hid, hvid]
  · intro h
    subst h
    rfl
  · cases desc with
    | none => simp [disk_disappeared]
    | some r =>
      cases hvid : (get_volume_info stat r).id <;>
        cases hdid : (get_device_info r).id <;>
        simp [disk_disappeared, hvid, hdid]

/-- C9 witness: on the record with no resolvable ids the disappeared
callback sends neither a RemoveVolume nor a RemoveDevice. -/
theorem C9_silent_partial_drop_witness :
    StorageEvent.RemoveVolume ⟨"X"⟩ ∉ disk_disappeared st0 (some recBare) ∧
    StorageEvent.RemoveDevice ⟨"Y"⟩ ∉ disk_disappeared st0 (some recBare) :=
  ⟨(C9_silent_partial_drop st0 (some recBare)).1 recBare rfl rfl ⟨"X"⟩,
   (C9_silent_partial_drop st0 (some recBare)).2.1 recBare rfl rfl ⟨"Y"⟩⟩

/-- C3: for every disappeared notification, any RemoveVolume event sent by
the disappeared callback sits at a strictly smaller index of the emitted
event sequence than any RemoveDevice event, so the two are never emitted
in the opposite order. -/
theorem C3_remove_volume_before_remove_device (stat : StatFn)
    (desc : Option DiskRecord) (i j : Nat) (vid : VolumeId) (did : DeviceId)
    (hv : (disk_disappeared stat desc)[i]? = some (StorageEvent.RemoveVolume vid))
    (hd : (disk_disappeared stat desc)[j]? = some (StorageEvent.RemoveDevice did)) :
    i < j := by
  cases desc with
  | none => simp [disk_disappeared] at hv
  | some r =>
    cases hvid : (get_volume_info stat r).id with
    | none =>
      rcases hdid : (get_device_info r).id with _ | d <;>
        simp [disk_disappeared, hvid, hdid] at hv
      rcases i with _ | i <;> simp at hv
    | some v =>
      cases hdid : (get_device_info r).id with
      | none =>
        simp [disk_disappeared, hvid, hdid] at hd
        rcases j with _ | j <;> simp at hd
      | some d =>
        simp [disk_disappeared, hvid, hdid] at hv hd
        rcases i with _ | i
        · rcases j with _ | j
          · simp at hd
          · exact Nat.succ_pos j
        · rcases i with _ | i
          · simp at hv
          · simp at hv

/-- C3 witness: on the SD-card record both ids resolve, RemoveVolume is at
index 0 and RemoveDevice at index 1 of the emitted sequence. -/
theorem C3_remove_order_witness :
    (disk_disappeared st0 (some recSD))[0]? =
      some (StorageEvent.RemoveVolume ⟨"ABCD-1"⟩) ∧
    (disk_disappeared st0 (some recSD))[1]? =
      some (StorageEvent.RemoveDevice ⟨"/dev/disk2"⟩) ∧
    0 < 1 :=
  ⟨rfl, rfl, C3_remove_volume_before_remove_device st0 (some recSD) 0 1
    ⟨"ABCD-1"⟩ ⟨"/dev/disk2"⟩ rfl rfl⟩

/-- C7 counterexample: session establishment is not the sole hard failure
of get_devices. In an environment where the session opens but the first
getfsstat call fails, get_devices still returns an error, contradicting
the claimed "error if and only if opening the session fails". -/
theorem C7_counterexample :
    envBadFsstat.sessionOk = true ∧
    exceptIsError (get_devices envBadFsstat) = true :=
  ⟨rfl, rfl⟩

/-- C7 amended: get_devices returns an error exactly when the session
cannot be opened or one of the two getfsstat enumeration calls fails, and
monitor_devices returns an error exactly when the session cannot be opened
or the current run loop cannot be obtained; per-disk failures (entries
whose disk object or description cannot be resolved) never cause an
error. -/
theorem C7_error_conditions (env : SnapshotEnv) (menv : MonitorEnv) :
    exceptIsError (get_devices env) =
      (!env.sessionOk || !env.fsstat1Ok || !env.fsstat2Ok) ∧
    exceptIsError (monitor_devices menv) =
      (!menv.sessionOk || !menv.runLoopOk) := by
  obtain ⟨s, f1, f2, es, st⟩ := env
  obtain ⟨ms, mr, ns, mst⟩ := menv
  constructor
  · cases s <;> cases f1 <;> cases f2 <;>
      simp [get_devices, exceptIsError]
  · cases ms <;> cases mr <;>
      simp [monitor_devices, exceptIsError]

/-- C10 counterexample: two records whose device paths differ only in
letter case yield volumes whose device ids are equal under the
case-insensitive PartialEq, yet whose path fields differ, so volumes on
the same device do not always carry identical path values. -/
theorem C10_counterexample :
    (get_volume_info st0 recLower).device_id = some ⟨"/dev/disk3"⟩ ∧
    (get_volume_info st0 recUpper).device_id = some ⟨"/DEV/DISK3"⟩ ∧
    deviceIdEq ⟨"/dev/disk3"⟩ ⟨"/DEV/DISK3"⟩ = true ∧
    (get_volume_info st0 recLower).path = some "/dev/disk3" ∧
    (get_volume_info st0 recUpper).path = some "/DEV/DISK3" ∧
    (some "/dev/disk3" : Option String) ≠ some "/DEV/DISK3" :=
  ⟨rfl, rfl, by decide, rfl, rfl, by decide⟩

/-- C10 amended: get_volume_info sets path to the native device-path
string, so path is Some exactly when device_id is Some, and two volumes
whose records carry the same raw device-path string have identical path
values; with device ids equal only case-insensitively the paths may differ
in case. -/
theorem C10_path_from_device_path (stat : StatFn) (r : DiskRecord) :
    (get_volume_info stat r).path = r.devicePath ∧
    (get_volume_info stat r).path.isSome =
      (get_volume_info stat r).device_id.isSome ∧
    (∀ stat2 r2, r.devicePath = r2.devicePath →
      (get_volume_info stat r).path = (get_volume_info stat2 r2).path) := by
  refine ⟨rfl, ?_, ?_⟩
  · show r.devicePath.isSome = (r.devicePath.map DeviceId.mk).isSome
    cases r.devicePath <;> rfl
  · intro stat2 r2 h
    show r.devicePath = r2.devicePath
    exact h

/-- C10 amended witness: two records sharing the raw device path
/dev/disk3 yield volumes with identical path values. -/
theorem C10_path_from_device_path_witness :
    (get_volume_info st0 recLower).path = (get_volume_info st0 recLower2).path :=
  (C10_path_from_device_path st0 recLower).2.2 st0 recLower2 rfl

/-- C4: the claimed case-insensitive merge fails on the code. Two entries
whose device paths are /dev/disk3 and /DEV/DISK3 resolve to device ids
that are equal under the case-insensitive PartialEq, yet the snapshot
returns two Device records, one per raw id, each holding only its own
volume id: the derived Hash feeds the raw string to the hasher, so the
entry probe for the second id never finds the first key. The claim (one
merged Device whose volumes set is the union of both volume ids) describes
what the spec demands and what hashing the lowercased form would restore;
for entries sharing the identical raw device path (rec3A and rec3B) the
merge does produce the claimed single Device. -/
theorem C4_case_insensitive_merge_fails :
    deviceIdEq ⟨"/dev/disk3"⟩ ⟨"/DEV/DISK3"⟩ = true ∧
    get_devices
      { sessionOk := true, fsstat1Ok := true, fsstat2Ok := true,
        entries := [some (some rec3A), some (some rec3BU)], stat := st0 } =
    Except.ok
      ([{ get_device_info rec3A with volumes := [⟨"AAAA-1"⟩] },
        { get_device_info rec3BU with volumes := [⟨"BBBB-2"⟩] }],
       [get_volume_info st0 rec3A, get_volume_info st0 rec3BU]) ∧
    get_devices
      { sessionOk := true, fsstat1Ok := true, fsstat2Ok := true,
        entries := [some (some rec3A), some (some rec3B)], stat := st0 } =
    Except.ok
      ([{ get_device_info rec3A with
            volumes := [⟨"AAAA-1"⟩, ⟨"BBBB-2"⟩] }],
       [get_volume_info st0 rec3A, get_volume_info st0 rec3B]) :=
  ⟨by decide, rfl, rfl⟩

/-- C5: after a successful snapshot, every returned Volume whose device_id
and id are present is linked: some returned Device carries an id equal to
the device_id of the volume under the case-insensitive PartialEq and its
volumes set holds an element equal to the id of the volume. -/
theorem C5_association (env : SnapshotEnv) (devs : List StorageDevice)
    (vols : List StorageVolume) (v : StorageVolume) (d : DeviceId)
    (vid : VolumeId) (hok : get_devices env = Except.ok (devs, vols))
    (hv : v ∈ vols) (hd : v.device_id = some d) (hid : v.id = some vid) :
    ∃ dev ∈ devs, (∃ k, dev.id = some k ∧ deviceIdEq k d = true) ∧
      ∃ w ∈ dev.volumes, volumeIdEq w vid = true := by
  obtain ⟨s, f1, f2, es, st⟩ := env
  cases s <;> cases f1 <;> cases f2 <;> simp [get_devices] at hok
  obtain ⟨hdevs, hvols⟩ := hok
  subst hdevs
  subst hvols
  rcases snapshotFold_assoc st es [] [] v d vid hv hd hid with hnil | hhas
  · simp at hnil
  · rcases hhas with ⟨p, hp, hk, w, hw, hwv⟩
    have hkey : p.2.id = some p.1 :=
      snapshotFold_keys st es [] [] (by simp) p hp
    exact ⟨p.2, List.mem_map_of_mem Prod.snd hp, ⟨p.1, hkey, hk⟩, w, hw, hwv⟩

/-- C5 witness: in the one-record snapshot of the SD-card scenario the
returned volume is linked to the returned device. -/
theorem C5_association_witness :
    ∃ dev ∈ devsC5,
      (∃ k, dev.id = some k ∧ deviceIdEq k ⟨"/dev/disk2"⟩ = true) ∧
      ∃ w ∈ dev.volumes, volumeIdEq w ⟨"ABCD-1"⟩ = true :=
  C5_association envC5 devsC5 volsC5 (get_volume_info st0 recSD)
    ⟨"/dev/disk2"⟩ ⟨"ABCD-1"⟩ rfl (by simp [volsC5]) rfl rfl

end ListDisks
